import Mathlib

/-!
Shallow embedding of the todo HTTP service in `src/main.rs` (axum +
bb8-postgres). Each handler is embedded as a pure function; external
effects are made explicit:

* the `todo` table is a `DbState` (ordered list of rows, result-set order);
* pool acquisition (`pool.get()`) and statement execution may fail; a
  failure is injected as an `Option String` fault carrying the textual
  description of the error (Rust `err.to_string()`);
* the 128-bit random value produced by `Uuid::new_v4()` is passed in as
  a `Nat` argument, and its hyphen-free rendering
  (`.simple().to_string()`) is embedded as `uuidSimple`;
* HTTP statuses are the bare numerals 200, 201, 500.
-/

namespace TodoService

/-- `struct Todo { id, description, completed }` (main.rs, lines 74-79). -/
structure Todo where
  id : String
  description : String
  completed : Bool
deriving DecidableEq, Repr

/-- `struct CreateTodo { description }` (main.rs, lines 60-63). -/
structure CreateTodo where
  description : String
deriving DecidableEq, Repr

/-- `struct UpdateTodo { id, description: Option, completed: Option }`
(main.rs, lines 66-71). -/
structure UpdateTodo where
  id : String
  description : Option String
  completed : Option Bool
deriving DecidableEq, Repr

/-- `struct Pagination { offset: Option<i64>, limit: Option<i64> }`
(main.rs, lines 82-86). The values are only passed to the query, never
arithmetically combined, so `Int` models `i64` exactly here. -/
structure Pagination where
  offset : Option Int
  limit : Option Int
deriving DecidableEq, Repr

/-- `#[derive(Default)]` on `Pagination`: both fields `None`. -/
def Pagination.default : Pagination := ⟨none, none⟩

/-- A row of the `todo` table as returned by the select: column 0 is the
id, column 1 the description, column 2 the completed flag. -/
abbrev Row := String × String × Bool

/-- The stored `todo` table, in result-set order. -/
abbrev DbState := List Row

/-- Positional mapping of a row into a `Todo` (main.rs, lines 149-159:
`row.get(0)` to id, `row.get(1)` to description, `row.get(2)` to
completed). -/
def rowToTodo (r : Row) : Todo :=
  { id := r.1, description := r.2.1, completed := r.2.2 }

/-- `fn internal_error<E: Error>(err) -> (StatusCode, String)`
(main.rs, lines 165-170): every storage-layer error becomes
`(500, err.to_string())`. -/
def internal_error (e : String) : Nat × String := (500, e)

/-- Lower-case hexadecimal digit character, as produced by the uuid crate
`Simple` formatter. -/
def hexDigit (n : Nat) : Char :=
  if n < 10 then Char.ofNat (48 + n) else Char.ofNat (87 + n)

/-- The sixteen characters a `Simple`-formatted uuid may contain. -/
def hexChars : List Char := "0123456789abcdef".data

/-- `Uuid::new_v4().simple().to_string()` (main.rs, line 94): the
128-bit value `u` rendered as 32 lower-case hex digits, most significant
nibble first, zero-padded, no hyphens. Each nibble is taken mod 16, so
only `u % 2^128` matters. -/
def uuidSimple (u : Nat) : String :=
  String.mk ((List.range 32).map (fun i => hexDigit (u / 16 ^ (31 - i) % 16)))

/-- Postgres execution of
`insert into todo (id, description, completed) values ($1, $2, $3)`
(main.rs, lines 101-107): on success the row is appended to the table;
a fault (connectivity loss, constraint violation, ...) yields the error
text and leaves the table unchanged. -/
def dbInsert (db : DbState) (r : Row) (fault : Option String) :
    Except String DbState :=
  match fault with
  | some e => Except.error e
  | none => Except.ok (db ++ [r])

/-- Postgres execution of
`select id, description, completed from todo offset $1 limit $2`
(main.rs, lines 138-144): a fault yields the error text; a negative
OFFSET or LIMIT is an execution error in Postgres; otherwise the rows
are the table with `offset` rows dropped and at most `limit` kept, in
table order. -/
def dbQuery (db : DbState) (offset limit : Int) (fault : Option String) :
    Except String (List Row) :=
  match fault with
  | some e => Except.error e
  | none =>
    if offset < 0 then Except.error "OFFSET must not be negative"
    else if limit < 0 then Except.error "LIMIT must not be negative"
    else Except.ok ((db.drop offset.toNat).take limit.toNat)

/-- `async fn todo_create` (main.rs, lines 89-110): build the record
with a fresh id and `completed = false`, acquire a connection, run the
insert; reply `(201, todo)` on success, `internal_error` on either
failure. Returns the response together with the table after the call. -/
def todo_create (u : Nat) (input : CreateTodo)
    (poolFault : Option String) (execFault : Option String)
    (db : DbState) :
    Except (Nat × String) (Nat × Todo) × DbState :=
  let todo : Todo :=
    { id := uuidSimple u, description := input.description,
      completed := false }
  match poolFault with
  | some e => (Except.error (internal_error e), db)
  | none =>
    match dbInsert db (todo.id, todo.description, todo.completed) execFault with
    | Except.error e => (Except.error (internal_error e), db)
    | Except.ok db2 => (Except.ok (201, todo), db2)

/-- `async fn todo_update` (main.rs, lines 113-118): no database access;
always `Ok((200, Json(utodo.id)))`. The table is untouched. -/
def todo_update (utodo : UpdateTodo) (db : DbState) :
    Except (Nat × String) (Nat × String) × DbState :=
  (Except.ok (200, utodo.id), db)

/-- `async fn todo_delete` (main.rs, lines 121-126): no database access;
always `Ok((200, Json(id)))`. The table is untouched. -/
def todo_delete (id : String) (db : DbState) :
    Except (Nat × String) (Nat × String) × DbState :=
  (Except.ok (200, id), db)

/-- The offset/limit pair the list handler hands to the query
(main.rs, lines 134-136): `pagination.unwrap_or_default()`, then
`offset.unwrap_or(0)` and `limit.unwrap_or(100)`. An absent or
unparseable-as-a-whole query string arrives as `none`. -/
def listParams (pagination : Option Pagination) : Int × Int :=
  let p := pagination.getD Pagination.default
  (p.offset.getD 0, p.limit.getD 100)

/-- `async fn todos_list` (main.rs, lines 129-162): acquire a
connection, resolve pagination defaults, run the select, map each row
positionally into a `Todo` preserving result-set order; reply
`(200, todos)` on success, `internal_error` on either failure. -/
def todos_list (pagination : Option Pagination)
    (poolFault : Option String) (queryFault : Option String)
    (db : DbState) :
    Except (Nat × String) (Nat × List Todo) × DbState :=
  match poolFault with
  | some e => (Except.error (internal_error e), db)
  | none =>
    let p := listParams pagination
    match dbQuery db p.1 p.2 queryFault with
    | Except.error e => (Except.error (internal_error e), db)
    | Except.ok rows => (Except.ok (200, rows.map rowToTodo), db)

/-- Every nibble renders to one of the sixteen hex characters. -/
theorem hexDigit_mem_hexChars (n : Nat) :
    hexChars.contains (hexDigit (n % 16)) = true := by
  have h : n % 16 < 16 := Nat.mod_lt _ (by decide)
  have hall : ∀ m, m < 16 → hexChars.contains (hexDigit m) = true := by decide
  exact hall _ h

/-- A `Simple`-formatted uuid has exactly 32 characters. -/
theorem uuidSimple_length (u : Nat) : (uuidSimple u).length = 32 := by
  simp [uuidSimple, String.length]

/-- C1: a successful create (pool acquisition and insert both succeed)
responds 201 with a Todo whose description equals the description of the request
and whose completed is false, and whose id is the hyphen-free 32-hex
rendering of the fresh 128-bit value: 32 characters long, non-empty,
every character a hexadecimal digit. -/
theorem create_success_response (u : Nat) (input : CreateTodo) (db : DbState) :
    (todo_create u input none none db).1 =
      Except.ok (201,
        { id := uuidSimple u, description := input.description,
          completed := false }) ∧
    (uuidSimple u).length = 32 ∧
    0 < (uuidSimple u).length ∧
    (uuidSimple u).data.all (fun c => hexChars.contains c) = true := by
  refine ⟨rfl, uuidSimple_length u, ?_, ?_⟩
  · rw [uuidSimple_length u]; decide
  · rw [List.all_eq_true]
    intro c hc
    rw [show (uuidSimple u).data
          = (List.range 32).map (fun i => hexDigit (u / 16 ^ (31 - i) % 16))
        from rfl, List.mem_map] at hc
    obtain ⟨i, _, rfl⟩ := hc
    exact hexDigit_mem_hexChars _

/-- C2: the update and delete handlers perform no storage operation
(the table state passes through unchanged) and respond 200 OK with the
supplied id echoed back. -/
theorem update_delete_no_storage (ut : UpdateTodo) (id : String)
    (db : DbState) :
    todo_update ut db = (Except.ok (200, ut.id), db) ∧
    todo_delete id db = (Except.ok (200, id), db) :=
  ⟨rfl, rfl⟩

/-- C3: when pool acquisition succeeds and the query returns rows, the
list handler responds 200 with each row mapped positionally into a
`Todo`, preserving result-set order; when the query returns no rows the
body is the empty array. The table is unchanged. -/
theorem list_maps_rows_in_order (pagination : Option Pagination)
    (db : DbState) (fault : Option String) (rows : List Row)
    (h : dbQuery db (listParams pagination).1 (listParams pagination).2 fault
          = Except.ok rows) :
    todos_list pagination none fault db
      = (Except.ok (200, rows.map rowToTodo), db) ∧
    (rows = [] →
      (todos_list pagination none fault db).1 = Except.ok (200, [])) := by
  constructor
  · simp only [todos_list, h]
  · intro hr
    simp only [todos_list, h, hr, List.map_nil]

/-- Witness for C3 at a concrete table and the default pagination. -/
theorem list_maps_rows_in_order_witness :
    todos_list none none none [("a", "x", false)]
      = (Except.ok (200, [{ id := "a", description := "x",
                            completed := false }]), [("a", "x", false)]) :=
  (list_maps_rows_in_order none [("a", "x", false)] none
    [("a", "x", false)] rfl).1

/-- C4: in the two handlers that touch storage, a pool-acquisition
failure and a statement-execution failure are both mapped by
`internal_error` to status 500 with the text of the error as the body, with
no distinction between the kinds. -/
theorem storage_failures_become_500 (e : String) (u : Nat)
    (input : CreateTodo) (pagination : Option Pagination)
    (db : DbState) (f : Option String) :
    (todo_create u input (some e) f db).1 = Except.error (500, e) ∧
    (todo_create u input none (some e) db).1 = Except.error (500, e) ∧
    (todos_list pagination (some e) f db).1 = Except.error (500, e) ∧
    (todos_list pagination none (some e) db).1 = Except.error (500, e) ∧
    internal_error e = (500, e) :=
  ⟨rfl, rfl, rfl, rfl, rfl⟩

/-- C5: an absent or wholly unparseable query string (extracted as
`none`) falls back to offset 0 and limit 100, and no parse error is
surfaced: the handler proceeds and answers 200 with the first 100
rows. -/
theorem list_defaults_applied (db : DbState) :
    listParams none = (0, 100) ∧
    (todos_list none none none db).1
      = Except.ok (200, (db.take 100).map rowToTodo) := by
  refine ⟨rfl, ?_⟩
  simp [todos_list, listParams, Pagination.default, dbQuery]

/-- C6: a record created with description `input.description` appears in
a later successful list call whose offset/limit window covers its
position, with the same id, the same description, and
`completed = false`. -/
theorem create_then_list_roundtrip (u : Nat) (input : CreateTodo)
    (db : DbState) (off lim : Int) (hoff : 0 ≤ off)
    (hlo : off.toNat ≤ db.length)
    (hhi : db.length < off.toNat + lim.toNat) :
    ∃ todos,
      (todos_list (some ⟨some off, some lim⟩) none none
          (todo_create u input none none db).2).1
        = Except.ok (200, todos) ∧
      { id := uuidSimple u, description := input.description,
        completed := false } ∈ todos := by
  have hlim : 0 ≤ lim := by
    by_contra hl
    push_neg at hl
    have h0 : lim.toNat = 0 := Int.toNat_of_nonpos hl.le
    omega
  have h2 : (todo_create u input none none db).2
      = db ++ [(uuidSimple u, input.description, false)] := rfl
  refine ⟨(((db ++ [(uuidSimple u, input.description, false)]).drop
      off.toNat).take lim.toNat).map rowToTodo, ?_, ?_⟩
  · rw [h2]
    simp [todos_list, listParams, dbQuery, not_lt.mpr hoff, not_lt.mpr hlim]
  · rw [List.mem_map]
    refine ⟨(uuidSimple u, input.description, false), ?_, rfl⟩
    rw [List.drop_append_of_le_length hlo, List.take_of_length_le]
    · exact List.mem_append_right _ (List.mem_singleton.mpr rfl)
    · simp only [List.length_append, List.length_drop, List.length_cons,
        List.length_nil]
      omega

/-- Witness for C6: create into an empty table, list with offset 0 and
limit 1. -/
theorem create_then_list_roundtrip_witness :
    ∃ todos,
      (todos_list (some ⟨some 0, some 1⟩) none none
          (todo_create 0 ⟨"buy milk"⟩ none none []).2).1
        = Except.ok (200, todos) ∧
      { id := uuidSimple 0, description := "buy milk",
        completed := false } ∈ todos :=
  create_then_list_roundtrip 0 ⟨"buy milk"⟩ [] 0 1 (by decide) (by decide)
    (by decide)

/-- C7: whenever a list request with `limit = 0` succeeds, its body is
the empty array, whatever the table contents and the offset. -/
theorem list_limit_zero_empty (o : Option Int)
    (poolFault queryFault : Option String) (db : DbState)
    (r : Nat × List Todo)
    (h : (todos_list (some ⟨o, some 0⟩) poolFault queryFault db).1
          = Except.ok r) :
    r = (200, []) := by
  cases poolFault with
  | some e => simp [todos_list] at h
  | none =>
    cases queryFault with
    | some e => simp [todos_list, dbQuery] at h
    | none =>
      by_cases ho : (o.getD 0 : Int) < 0
      · simp [todos_list, listParams, dbQuery, ho] at h
      · simp [todos_list, listParams, dbQuery, ho] at h
        exact h.symm

/-- Witness for C7 at a non-empty table and a nonzero offset. -/
theorem list_limit_zero_empty_witness :
    ((200 : Nat), ([] : List Todo)) = (200, []) :=
  list_limit_zero_empty (some 5) none none [("a", "x", true)] (200, [])
    rfl

/-- C8: for every id, update and delete answer `Ok` with status 200 —
they cannot produce an error response — and their responses do not
depend on the table state, so repeated calls with the same id are
identical whether or not the id exists in storage. -/
theorem update_delete_always_ok (ut : UpdateTodo) (id : String)
    (db db2 : DbState) :
    (todo_update ut db).1 = Except.ok (200, ut.id) ∧
    (todo_delete id db).1 = Except.ok (200, id) ∧
    (todo_update ut db).1 = (todo_update ut db2).1 ∧
    (todo_delete id db).1 = (todo_delete id db2).1 :=
  ⟨rfl, rfl, rfl, rfl⟩

/-- C9: a caller-supplied limit (and offset) reaches the query
unchanged: the handler applies no clamp, bound or validation, and the
response is exactly the outcome of the query at those values. -/
theorem list_limit_passed_unchanged (o l : Int) (db : DbState) :
    listParams (some ⟨some o, some l⟩) = (o, l) ∧
    (todos_list (some ⟨some o, some l⟩) none none db).1
      = (match dbQuery db o l none with
         | Except.error e => Except.error (internal_error e)
         | Except.ok rows => Except.ok (200, rows.map rowToTodo)) := by
  refine ⟨rfl, ?_⟩
  cases hq : dbQuery db o l none with
  | error e => simp [todos_list, listParams, hq]
  | ok rows => simp [todos_list, listParams, hq]

/-- C10: the output of the update handler depends only on the id field of
the body; the optional description and completed fields are parsed but
have no effect. -/
theorem update_depends_only_on_id (a b : UpdateTodo) (db : DbState)
    (h : a.id = b.id) :
    todo_update a db = todo_update b db := by
  simp [todo_update, h]

/-- Witness for C10: same id, different optional fields. -/
theorem update_depends_only_on_id_witness :
    todo_update ⟨"k", some "x", some true⟩ []
      = todo_update ⟨"k", none, none⟩ [] :=
  update_depends_only_on_id ⟨"k", some "x", some true⟩ ⟨"k", none, none⟩
    [] rfl

end TodoService
